import Mathlib

set_option maxHeartbeats 1000000

/-!
Shallow embedding of the GitHub webhook ingestion pipeline of this
repository (run.py, app/app.py, Models.py): signature verification,
event dispatch and normalization, field validation, and the event store.

Python values taken from a parsed JSON payload are modelled by `Json`;
Python control flow that can raise an uncaught exception is modelled in
`Except String`, where the error string names the exception class (an
uncaught exception is turned into an HTTP 500 by the hosting framework).
The external libraries used by the code (hashlib/hmac digests,
datetime.fromisoformat) are modelled as explicit function parameters,
since their internals are outside this repository.
-/

/-- A parsed JSON value, as produced by request.get_json. Numbers are
modelled as integers; no claim involves fractional numbers. -/
inductive Json where
  | null
  | bool (b : Bool)
  | num (n : Int)
  | str (s : String)
  | arr (xs : List Json)
  | obj (kvs : List (String × Json))
deriving Repr

/-- A single quote character, used to build the f-string messages of the
handler without writing the character directly. -/
def sglq : String := (Char.ofNat 39).toString

/-- Python truthiness of a JSON-derived value: None, False, 0, the empty
string, the empty list and the empty dict are falsy. -/
def Json.truthy : Json → Bool
  | .null => false
  | .bool b => b
  | .num n => n != 0
  | .str s => s != ""
  | .arr xs => !xs.isEmpty
  | .obj kvs => !kvs.isEmpty

/-- Python equality test of a JSON-derived value against a string literal
(x == "opened"): only a string compares equal to a string. -/
def Json.eqStr : Json → String → Bool
  | .str s, t => s == t
  | _, _ => false

/-- Python equality test against True (x == True): True itself and the
number 1 compare equal to True. -/
def Json.pyEqTrue : Json → Bool
  | .bool b => b
  | .num n => n == 1
  | _ => false

/-- Python dict .get with a default: raises AttributeError when the
receiver is not a dict. -/
def Json.pyGet (j : Json) (k : String) (dflt : Json) : Except String Json :=
  match j with
  | .obj kvs => Except.ok ((kvs.lookup k).getD dflt)
  | _ => Except.error "AttributeError: get"

/-- Python subscript access x[k]: KeyError when a dict lacks the key,
TypeError when the receiver is not a dict. -/
def Json.pyIndex (j : Json) (k : String) : Except String Json :=
  match j with
  | .obj kvs =>
    match kvs.lookup k with
    | some v => Except.ok v
    | none => Except.error ("KeyError: " ++ k)
  | _ => Except.error "TypeError: subscript"

/-- Python string-method access (.replace, .startswith) on a JSON-derived
value: AttributeError when the value is not a string. -/
def Json.asStrA : Json → Except String String
  | .str s => Except.ok s
  | _ => Except.error "AttributeError: str method"

mutual
/-- Python repr of a JSON-derived value (approximate for the quoting of
strings inside containers, which no claim exercises). -/
def Json.pyRepr : Json → String
  | .null => "None"
  | .bool true => "True"
  | .bool false => "False"
  | .num n => toString n
  | .str s => sglq ++ s ++ sglq
  | .arr xs => "[" ++ pyReprList xs ++ "]"
  | .obj kvs => "\x7b" ++ pyReprObj kvs ++ "\x7d"

/-- Comma-separated repr of the elements of a JSON array. -/
def pyReprList : List Json → String
  | [] => ""
  | [x] => x.pyRepr
  | x :: xs => x.pyRepr ++ ", " ++ pyReprList xs

/-- Comma-separated repr of the entries of a JSON object. -/
def pyReprObj : List (String × Json) → String
  | [] => ""
  | [(k, v)] => sglq ++ k ++ sglq ++ ": " ++ v.pyRepr
  | (k, v) :: kvs => sglq ++ k ++ sglq ++ ": " ++ v.pyRepr ++ ", " ++ pyReprObj kvs
end

/-- Python str of a JSON-derived value, as interpolated by an f-string. -/
def Json.pyStr : Json → String
  | .str s => s
  | j => j.pyRepr

mutual
/-- The json.dumps serialization of a payload (default separators; string
escaping is not modelled, no claim exercises it). -/
def Json.dumps : Json → String
  | .null => "null"
  | .bool true => "true"
  | .bool false => "false"
  | .num n => toString n
  | .str s => "\"" ++ s ++ "\""
  | .arr xs => "[" ++ dumpsList xs ++ "]"
  | .obj kvs => "\x7b" ++ dumpsObj kvs ++ "\x7d"

/-- Comma-separated dumps of the elements of a JSON array. -/
def dumpsList : List Json → String
  | [] => ""
  | [x] => x.dumps
  | x :: xs => x.dumps ++ ", " ++ dumpsList xs

/-- Comma-separated dumps of the entries of a JSON object. -/
def dumpsObj : List (String × Json) → String
  | [] => ""
  | [(k, v)] => "\"" ++ k ++ "\": " ++ v.dumps
  | (k, v) :: kvs => "\"" ++ k ++ "\": " ++ v.dumps ++ ", " ++ dumpsObj kvs
end

/-- Python s[:n] on a string. -/
def pySliceTo (n : Nat) (s : String) : String := String.mk (s.data.take n)

/-- Python s.startswith(pre). -/
def pyStartsWith (s pre : String) : Bool := pre.data.isPrefixOf s.data

/-- Replace the first occurrence of pat in a character list by rep
(Python s.replace(pat, rep, 1)). -/
def replFirst (pat rep : List Char) : List Char → List Char
  | [] => []
  | c :: cs =>
    if pat.isPrefixOf (c :: cs) then rep ++ (c :: cs).drop pat.length
    else c :: replFirst pat rep cs

/-- Python s.replace(pat, rep, 1) on strings (pat nonempty). -/
def pyReplaceFirst (s pat rep : String) : String :=
  String.mk (replFirst pat.data rep.data s.data)

/-- Python s.replace(c, rep) for a single-character pattern, replacing
every occurrence. -/
def pyReplaceAllChar (s : String) (c : Char) (rep : String) : String :=
  String.mk (s.data.map (fun d => if d = c then rep.data else [d])).flatten

/-- Split a string at its first occurrence of sep (Python
s.split(sep, 1) succeeding): none when sep does not occur. -/
def splitOnceAux (sep : Char) : List Char → Option (List Char × List Char)
  | [] => none
  | c :: cs =>
    if c = sep then some ([], cs)
    else
      match splitOnceAux sep cs with
      | none => none
      | some (a, b) => some (c :: a, b)

/-- Python sha_name, signature = header.split("=", 1): none models the
ValueError of unpacking a 1-element list. -/
def pySplitOnce (s : String) (sep : Char) : Option (String × String) :=
  match splitOnceAux sep s.data with
  | none => none
  | some (a, b) => some (String.mk a, String.mk b)

/-- A datetime value: either the result of a successful
datetime.fromisoformat on a normalized string, or datetime.utcnow at the
ingestion instant (instants numbered by a Nat token). -/
inductive DTime where
  | fromIso (s : String)
  | utcnow (t : Nat)
deriving Repr, DecidableEq

/-- Python truthiness of a datetime value: always True. -/
def DTime.pyTruthy : DTime → Bool := fun _ => true

/-- Result of run.py verify_github_signature: none means the check
passed, some (status, message) means abort(status, message). -/
def verify_github_signature (sigHeader : Option String) (expected : String) :
    Option (Nat × String) :=
  match sigHeader with
  | none => some (400, "Missing X-Hub-Signature-256 header")
  | some h =>
    if h = "" then some (400, "Missing X-Hub-Signature-256 header")
    else
      match pySplitOnce h '=' with
      | none => some (400, "Malformed X-Hub-Signature-256 header")
      | some (shaName, sig) =>
        if shaName ≠ "sha256" then some (400, "We only support sha256 signatures")
        else if expected = sig then none
        else some (400, "Invalid signature")

/-- The signature gate of run.py github_webhook: when the configured
secret is empty the verifier is never called; otherwise the expected
digest is the hex HMAC-SHA256 of the raw body keyed by the secret,
computed by the external hmac library modelled by hmacHex. -/
def signature_gate (hmacHex : String → List Nat → String) (secret : String)
    (body : List Nat) (sigHeader : Option String) : Option (Nat × String) :=
  if secret = "" then none
  else verify_github_signature sigHeader (hmacHex secret body)

/-- Outcome of the app/app.py variant of verify_github_signature. The
split of the header there is not guarded by try/except, so a header
without a separator raises an uncaught ValueError. -/
inductive AppSigResult where
  | pass
  | badRequest (msg : String)
  | valueErrorCrash
deriving Repr, DecidableEq

/-- app/app.py verify_github_signature: only a header that is literally
absent is rejected as missing; the unpacking of header.split("=", 1)
is unguarded. -/
def verify_github_signature_app (sigHeader : Option String) (expected : String) :
    AppSigResult :=
  match sigHeader with
  | none => .badRequest "Missing signature header"
  | some h =>
    match pySplitOnce h '=' with
    | none => .valueErrorCrash
    | some (shaName, sig) =>
      if shaName ≠ "sha256" then .badRequest "Unsupported signature type"
      else if expected = sig then .pass
      else .badRequest "Invalid signature"

/-- The GitHubEvent document constructed by run.py before doc.save(). -/
structure GitHubEvent where
  event_type : String
  author : Json
  from_branch : Option Json
  to_branch : Json
  timestamp : DTime
  repo_full_name : Json
  raw_payload : String
deriving Repr

/-- Result of the dispatch section of run.py github_webhook (lines
80-132): either an early 200 ignore response or the extracted fields of
a record still to be validated and saved. -/
inductive NormResult where
  | ignored (msg : String)
  | record (event_type : String) (author : Json) (from_branch : Option Json)
      (to_branch : Json) (event_time : DTime)
deriving Repr

/-- Observable outcome of one webhook delivery: resp is a non-storing
HTTP response, stored is the 201 response together with the persisted
document, crash is an uncaught Python exception which the framework
turns into an HTTP 500. -/
inductive WebhookOutcome where
  | resp (status : Nat) (msg : String)
  | stored (doc : GitHubEvent) (msg : String)
  | crash (e : String)
deriving Repr

/-- HTTP status code of an outcome: a stored record is answered with
201, an uncaught exception with 500. -/
def WebhookOutcome.statusOf : WebhookOutcome → Nat
  | .resp s _ => s
  | .stored _ _ => 201
  | .crash _ => 500

/-- One inbound delivery: the two relevant headers, the raw body bytes,
and the result of request.get_json(force=True) on that body (none when
the body is not valid JSON). -/
structure WebhookRequest where
  sigHeader : Option String
  eventHeader : Option String
  body : List Nat
  parsedJson : Option Json

/-- repo_full = payload.get("repository", \x7b\x7d).get("full_name",
"unknown/unknown") from run.py line 78. -/
def repoExtract (payload : Json) : Except String Json := do
  let repo ← payload.pyGet "repository" (Json.obj [])
  repo.pyGet "full_name" (Json.str "unknown/unknown")

/-- datetime.fromisoformat(x.replace("Z", "+00:00")) if x else
datetime.utcnow(): the timestamp normalization used for created_at and
merged_at, and for the truthy head_commit timestamp. parseOk models
which normalized strings datetime.fromisoformat accepts. -/
def optTime (parseOk : String → Bool) (now : Nat) (j : Json) :
    Except String DTime :=
  if j.truthy then do
    let s ← j.asStrA
    let r := pyReplaceAllChar s 'Z' "+00:00"
    if parseOk r then pure (DTime.fromIso r) else Except.error "ValueError: fromisoformat"
  else pure (DTime.utcnow now)

/-- Event time of a push (run.py lines 95-100): uses
head_commit.timestamp when head_commit and its timestamp are truthy,
else the ingestion time. -/
def pushTime (parseOk : String → Bool) (now : Nat) (payload : Json) :
    Except String DTime := do
  let head ← payload.pyGet "head_commit" (Json.obj [])
  if head.truthy then
    let tsJ ← head.pyGet "timestamp" Json.null
    optTime parseOk now tsJ
  else pure (DTime.utcnow now)

/-- The ignore message for an unhandled pull_request action. -/
def ignorePrMsg (actionJ : Json) : String :=
  "Ignored pull_request action=" ++ sglq ++ actionJ.pyStr ++ sglq

/-- The ignore message for an unhandled event type. -/
def ignoreEventMsg (h : String) : String :=
  "Ignored event type=" ++ sglq ++ h ++ sglq

/-- Dispatch and field extraction of run.py github_webhook (lines
77-132): from the event header and parsed payload to either an ignore
message or the extracted record fields, together with repo_full_name.
Errors are uncaught Python exceptions. -/
def webhook_core (parseOk : String → Bool) (now : Nat) (eventHeader : String)
    (payload : Json) : Except String (Json × NormResult) := do
  let repoFull ← repoExtract payload
  if eventHeader = "push" then
    let pusher ← payload.pyIndex "pusher"
    let author ← pusher.pyIndex "name"
    let refJ ← payload.pyGet "ref" (Json.str "")
    let ref ← refJ.asStrA
    let toB := if pyStartsWith ref "refs/heads/" then pyReplaceFirst ref "refs/heads/" "" else ref
    let tm ← pushTime parseOk now payload
    pure (repoFull, NormResult.record "push" author none (Json.str toB) tm)
  else if eventHeader = "pull_request" then
    let actionJ ← payload.pyGet "action" (Json.str "")
    let prData ← payload.pyGet "pull_request" (Json.obj [])
    if actionJ.eqStr "opened" then
      let user ← prData.pyIndex "user"
      let author ← user.pyIndex "login"
      let headObj ← prData.pyIndex "head"
      let fromB ← headObj.pyIndex "ref"
      let baseObj ← prData.pyIndex "base"
      let toB ← baseObj.pyIndex "ref"
      let createdJ ← prData.pyGet "created_at" Json.null
      let tm ← optTime parseOk now createdJ
      pure (repoFull, NormResult.record "pull_request" author (some fromB) toB tm)
    else if actionJ.eqStr "closed" then
      let mergedJ ← prData.pyGet "merged" Json.null
      if mergedJ.pyEqTrue then
        let mb ← prData.pyIndex "merged_by"
        let author ← mb.pyIndex "login"
        let headObj ← prData.pyIndex "head"
        let fromB ← headObj.pyIndex "ref"
        let baseObj ← prData.pyIndex "base"
        let toB ← baseObj.pyIndex "ref"
        let mergedAtJ ← prData.pyGet "merged_at" Json.null
        let tm ← optTime parseOk now mergedAtJ
        pure (repoFull, NormResult.record "merge" author (some fromB) toB tm)
      else pure (repoFull, NormResult.ignored (ignorePrMsg actionJ))
    else pure (repoFull, NormResult.ignored (ignorePrMsg actionJ))
  else pure (repoFull, NormResult.ignored (ignoreEventMsg eventHeader))

/-- Validation and save of run.py github_webhook (lines 134-154): the
four required fields are checked for Python truthiness, then the
document is built and saved; saveOk models whether the MongoDB save
raises. -/
def finalize (saveOk : Bool) (payload repoFull : Json) (event_type : String)
    (author : Json) (from_branch : Option Json) (to_branch : Json)
    (event_time : DTime) : WebhookOutcome :=
  if (event_type != "") && author.truthy && to_branch.truthy && event_time.pyTruthy then
    if saveOk then
      .stored
        { event_type := event_type, author := author, from_branch := from_branch,
          to_branch := to_branch, timestamp := event_time, repo_full_name := repoFull,
          raw_payload := pySliceTo 16000 payload.dumps }
        ("Recorded " ++ event_type ++ " event")
    else .resp 500 "Database error"
  else .resp 400 "Missing required fields from payload"

/-- The POST /github-webhook handler of run.py, end to end: signature
gate, JSON parse, dispatch, validation, save. -/
def github_webhook (parseOk : String → Bool)
    (hmacHex : String → List Nat → String) (saveOk : Bool) (secret : String)
    (now : Nat) (req : WebhookRequest) : WebhookOutcome :=
  match signature_gate hmacHex secret req.body req.sigHeader with
  | some (code, msg) => .resp code msg
  | none =>
    match req.parsedJson with
    | none => .resp 400 "Invalid JSON"
    | some payload =>
      match webhook_core parseOk now (req.eventHeader.getD "") payload with
      | .error e => .crash e
      | .ok (_, NormResult.ignored msg) => .resp 200 msg
      | .ok (repoFull, NormResult.record et au fb tb tm) =>
        finalize saveOk payload repoFull et au fb tb tm

/-- Modelled from the spec (section 8, first testable property): the ref
value with a literal "refs/heads/" prefix stripped when present,
unchanged otherwise. Compared below with the expression run.py builds
from replace and startswith. -/
def stripRefsHeads (ref : String) : String :=
  if pyStartsWith ref "refs/heads/" then String.mk (ref.data.drop 11) else ref

/-- The bad-format condition of claim C1 on the X-Hub-Signature-256
header: missing, without a "=" separator, or with an algorithm prefix
other than sha256 (the empty header, which run.py reports as missing,
also lacks a separator). -/
def headerFormatBad (h : Option String) : Bool :=
  match h with
  | none => true
  | some s =>
    (s == "") ||
    (match pySplitOnce s '=' with
     | none => true
     | some (p, _) => p != "sha256")

/-- The three messages with which run.py verify_github_signature rejects
a badly formatted header, as opposed to a digest mismatch. -/
def isBadSigFormatMsg (m : String) : Bool :=
  m == "Missing X-Hub-Signature-256 header" ||
  m == "Malformed X-Hub-Signature-256 header" ||
  m == "We only support sha256 signatures"

/-- Modelled from the spec: run.py persists GitHubEvent documents through
mongoengine into MongoDB, and the GitHubEvent Document class itself is
imported from a models module that is absent from the sources (Models.py
only declares the push-only PushEvent variant). Per spec section 4.3 and
section 3, a stored document carries a unique identifier and a
server-assigned received_at record-insertion instant next to the record. -/
structure StoredDoc where
  id : Nat
  doc : GitHubEvent
  received_at : Nat
deriving Repr

/-- Modelled from the spec: the event store is the sequence of stored
documents together with the next free identifier. -/
structure EventStore where
  nextId : Nat
  docs : List StoredDoc
deriving Repr

/-- Modelled from the spec: save(record) persists exactly one document,
assigning it the next free identifier and the current instant as its
received_at; the event-occurrence timestamp inside the record is not
consulted. -/
def EventStore.save (st : EventStore) (r : GitHubEvent) (now : Nat) : EventStore :=
  { nextId := st.nextId + 1,
    docs := st.docs ++ [{ id := st.nextId, doc := r, received_at := now }] }

/-- Well-formedness of the store: every stored identifier is below the
next free one, so a fresh identifier is never reused. -/
def EventStore.Wf (st : EventStore) : Prop :=
  ∀ d ∈ st.docs, d.id < st.nextId

/-- Modelled from the spec: insertion of a document into a list that is
already sorted by descending timestamp key. -/
def insertDesc (key : DTime → Int) (x : StoredDoc) : List StoredDoc → List StoredDoc
  | [] => [x]
  | y :: ys =>
    if key y.doc.timestamp ≤ key x.doc.timestamp then x :: y :: ys
    else y :: insertDesc key x ys

/-- Modelled from the spec: GitHubEvent.objects.order_by("-timestamp"),
the stored documents sorted by descending timestamp. Comparison of
datetime values is modelled through a key function into the integer
time axis. -/
def sortDesc (key : DTime → Int) : List StoredDoc → List StoredDoc
  | [] => []
  | x :: xs => insertDesc key x (sortDesc key xs)

/-- Modelled from the spec: the limit step of the MongoDB query. A limit
of 0 returns every document and a negative limit behaves like its
absolute value; neither raises an error. -/
def mongoLimit (n : Int) (l : List StoredDoc) : List StoredDoc :=
  if n = 0 then l else l.take n.natAbs

/-- Python int(s) digit-group check: nonempty, decimal digits with
single underscores strictly between digits. -/
def pyDigitsOk : List Char → Bool
  | [] => false
  | [c] => c.isDigit
  | c :: '_' :: rest =>
    c.isDigit && (match rest with | d :: _ => d.isDigit | [] => false) && pyDigitsOk rest
  | c :: rest => c.isDigit && pyDigitsOk rest

/-- Numeric value of a validated Python integer literal, ignoring the
underscore separators. -/
def digitsValue (cs : List Char) : Nat :=
  cs.foldl (fun a c => if c = '_' then a else a * 10 + (c.toNat - 48)) 0

/-- Whitespace stripping applied by Python int() to its argument. -/
def pyStrip (cs : List Char) : List Char :=
  ((cs.dropWhile Char.isWhitespace).reverse.dropWhile Char.isWhitespace).reverse

/-- Python int(s) on a string: an optional sign followed by digits; none
models the ValueError raised on a non-numeric string. -/
def pyInt (s : String) : Option Int :=
  match pyStrip s.data with
  | '+' :: rest => if pyDigitsOk rest then some (Int.ofNat (digitsValue rest)) else none
  | '-' :: rest => if pyDigitsOk rest then some (-(Int.ofNat (digitsValue rest))) else none
  | rest => if pyDigitsOk rest then some (Int.ofNat (digitsValue rest)) else none

/-- The limit computation of run.py list_events (lines 163-166): the
query parameter defaults to 20 when absent, and a ValueError from int()
is caught and also yields 20. -/
def parseLimit (p : Option String) : Int :=
  match p with
  | none => 20
  | some s => (pyInt s).getD 20

/-- The GET /events handler of run.py: the stored documents ordered by
descending timestamp, capped by the parsed limit. The MongoDB ordering
and limit are modelled from the spec; the limit parsing is run.py. -/
def list_events (key : DTime → Int) (db : List StoredDoc) (p : Option String) :
    List StoredDoc :=
  mongoLimit (parseLimit p) (sortDesc key db)

/-- A concrete record used by the concrete witnesses below. -/
def sampleEvent (name branch : String) (t : Nat) : GitHubEvent :=
  { event_type := "push", author := Json.str name, from_branch := none,
    to_branch := Json.str branch, timestamp := DTime.utcnow t,
    repo_full_name := Json.str "o/r", raw_payload := "" }

/-- A concrete timestamp key for the concrete witnesses: the position of
an ingestion instant on the time axis. -/
def utKey : DTime → Int
  | .fromIso _ => 0
  | .utcnow t => (t : Int)

/-- A concrete store used by the concrete list witness. -/
def sampleDb : List StoredDoc :=
  [{ id := 0, doc := sampleEvent "a" "m" 1, received_at := 0 },
   { id := 1, doc := sampleEvent "b" "m" 5, received_at := 0 },
   { id := 2, doc := sampleEvent "c" "m" 3, received_at := 0 }]

theorem exc_bind_ok {α β : Type} (a : α) (f : α → Except String β) :
    (Except.ok a >>= f) = f a := rfl

theorem exc_bind_error {α β : Type} (e : String) (f : α → Except String β) :
    ((Except.error e : Except String α) >>= f) = Except.error e := rfl

theorem exc_pure {α : Type} (a : α) : (pure a : Except String α) = Except.ok a := rfl

theorem replFirst_drop (pat : List Char) (l : List Char) (hne : pat ≠ [])
    (h : pat.isPrefixOf l = true) : replFirst pat [] l = l.drop pat.length := by
  cases l with
  | nil =>
    cases pat with
    | nil => exact absurd rfl hne
    | cons p ps => simp [List.isPrefixOf] at h
  | cons c cs => simp [replFirst, h]

theorem code_strip_eq_spec (ref : String) :
    (if pyStartsWith ref "refs/heads/" then pyReplaceFirst ref "refs/heads/" "" else ref)
      = stripRefsHeads ref := by
  unfold stripRefsHeads
  by_cases h : pyStartsWith ref "refs/heads/" = true
  · rw [if_pos h, if_pos h]
    unfold pyReplaceFirst
    rw [replFirst_drop _ _ (by decide) h]
    have hlen : ("refs/heads/".data).length = 11 := rfl
    rw [hlen]
  · rw [if_neg h, if_neg h]

theorem finalize_stored {saveOk : Bool} {payload repoFull : Json} {et : String}
    {au : Json} {fb : Option Json} {tb : Json} {tm : DTime}
    {doc : GitHubEvent} {msg : String}
    (h : finalize saveOk payload repoFull et au fb tb tm = .stored doc msg) :
    doc = { event_type := et, author := au, from_branch := fb, to_branch := tb,
            timestamp := tm, repo_full_name := repoFull,
            raw_payload := pySliceTo 16000 payload.dumps } ∧
      (et ≠ "") ∧ au.truthy = true ∧ tb.truthy = true := by
  unfold finalize at h
  split at h
  next hguard =>
    simp only [Bool.and_eq_true, bne_iff_ne, ne_eq] at hguard
    split at h
    · cases h
      exact ⟨rfl, hguard.1.1.1, hguard.1.1.2, hguard.1.2⟩
    · cases h
  next => cases h

theorem truthy_ne_null {j : Json} (h : j.truthy = true) : j ≠ Json.null := by
  intro he; subst he; simp [Json.truthy] at h

theorem truthy_str_ne_empty {j : Json} {s : String} (h : j.truthy = true)
    (hs : j = Json.str s) : s ≠ "" := by
  subst hs; simpa [Json.truthy] using h

/-- C1 (amended): when the configured secret is empty the signature gate
passes every request. When a nonempty secret is configured, the run.py
verifier rejects with a 400 bad-format message exactly when the header
is missing or empty, lacks a "=" separator, or has an algorithm prefix
other than sha256, and on a well-formatted header it passes exactly when
the presented digest equals the hex HMAC-SHA256 of the raw body under
the secret, rejecting with 400 "Invalid signature" otherwise. The
app/app.py variant likewise rejects a missing header, a wrong prefix and
a mismatched digest with 400, but a present header without a "="
separator makes it raise an uncaught ValueError (HTTP 500) instead of a
400 bad-format response. -/
theorem C1_signature_contract :
    (∀ hm : String → List Nat → String, ∀ body hdr,
      signature_gate hm "" body hdr = none) ∧
    (∀ hm : String → List Nat → String, ∀ secret body hdr, secret ≠ "" →
      ((∃ m, signature_gate hm secret body hdr = some (400, m) ∧
          isBadSigFormatMsg m = true) ↔ headerFormatBad hdr = true)) ∧
    (∀ hm : String → List Nat → String, ∀ secret body h sig, secret ≠ "" →
      h ≠ "" → pySplitOnce h '=' = some ("sha256", sig) →
      signature_gate hm secret body (some h) =
        (if hm secret body = sig then none else some (400, "Invalid signature"))) ∧
    (∀ expected, verify_github_signature_app none expected =
      .badRequest "Missing signature header") ∧
    (∀ h expected, pySplitOnce h '=' = none →
      verify_github_signature_app (some h) expected = .valueErrorCrash) ∧
    (∀ h p sig expected, pySplitOnce h '=' = some (p, sig) →
      verify_github_signature_app (some h) expected =
        (if p = "sha256" then
          (if expected = sig then .pass else .badRequest "Invalid signature")
         else .badRequest "Unsupported signature type")) := by
  refine ⟨?_, ?_, ?_, ?_, ?_, ?_⟩
  · intro hm body hdr
    simp [signature_gate]
  · intro hm secret body hdr hs
    cases hdr with
    | none =>
      simp only [signature_gate, if_neg hs, verify_github_signature, headerFormatBad]
      constructor
      · intro _; trivial
      · intro _; exact ⟨"Missing X-Hub-Signature-256 header", rfl, rfl⟩
    | some s =>
      simp only [signature_gate, if_neg hs, verify_github_signature, headerFormatBad]
      by_cases hse : s = ""
      · subst hse
        simp [isBadSigFormatMsg]
      · rw [if_neg hse]
        cases hsp : pySplitOnce s '=' with
        | none =>
          simp [hse, isBadSigFormatMsg]
        | some pr =>
          obtain ⟨p, sig⟩ := pr
          by_cases hp : p = "sha256"
          · subst hp
            by_cases he : hm secret body = sig
            · simp [hse, hsp, he, isBadSigFormatMsg]
            · simp [hse, hsp, he, isBadSigFormatMsg]
          · simp [hse, hsp, hp, isBadSigFormatMsg]
  · intro hm secret body h sig hs hne hsp
    simp only [signature_gate, if_neg hs, verify_github_signature, if_neg hne, hsp]
    simp
  · intro expected; rfl
  · intro h expected hsp
    simp only [verify_github_signature_app, hsp]
  · intro h p sig expected hsp
    simp only [verify_github_signature_app, hsp]
    by_cases hp : p = "sha256"
    · subst hp; simp
    · simp [hp]

/-- C1 witness: the contract applied at a concrete nonempty secret and a
well-formatted header carrying a digest that differs from the computed
one. -/
theorem C1_signature_contract_witness :
    signature_gate (fun _ _ => "aa") "s" [] (some "sha256=bb") =
      some (400, "Invalid signature") :=
  C1_signature_contract.2.2.1 (fun _ _ => "aa") "s" [] "sha256=bb" "bb"
    (by decide) (by decide) rfl

/-- C1 counterexample: with a secret configured, a present
X-Hub-Signature-256 header that lacks a "=" separator makes the app.py
verifier raise an uncaught ValueError, surfaced as HTTP 500, instead of
the 400 bad-format rejection stated by the claim. -/
theorem C1_signature_counterexample :
    verify_github_signature_app (some "sha256deadbeef") "deadbeef" =
      AppSigResult.valueErrorCrash := rfl

/-- C2: at a push delivery whose payload lacks the required pusher
field, run.py github_webhook raises an uncaught KeyError, which the
framework surfaces as HTTP 500, instead of the 400 PayloadError response
stated by the claim; no record is persisted on this path. -/
theorem C2_missing_field_uncaught_keyerror :
    github_webhook (fun _ => true) (fun _ _ => "") true "" 0
        { sigHeader := none, eventHeader := some "push", body := [],
          parsedJson := some (Json.obj []) } = .crash "KeyError: pusher" ∧
      WebhookOutcome.statusOf (.crash "KeyError: pusher") = 500 :=
  ⟨rfl, rfl⟩

/-- C3: for every push delivery that stores a record and whose payload
carries a string ref field, the recorded to_branch is the ref with a
literal "refs/heads/" prefix stripped when the ref starts with that
prefix and the ref unchanged otherwise, and the recorded from_branch is
null. -/
theorem C3_push_to_branch (parseOk : String → Bool)
    (hm : String → List Nat → String) (saveOk : Bool) (secret : String)
    (now : Nat) (sigH : Option String) (body : List Nat)
    (kvs : List (String × Json)) (pusherJ authorJ repoFull : Json)
    (ref : String) (tm : DTime)
    (hgate : signature_gate hm secret body sigH = none)
    (hrepo : repoExtract (Json.obj kvs) = Except.ok repoFull)
    (hpusher : (Json.obj kvs).pyIndex "pusher" = Except.ok pusherJ)
    (hname : pusherJ.pyIndex "name" = Except.ok authorJ)
    (href : kvs.lookup "ref" = some (Json.str ref))
    (htime : pushTime parseOk now (Json.obj kvs) = Except.ok tm)
    {doc : GitHubEvent} {msg : String}
    (hout : github_webhook parseOk hm saveOk secret now
        { sigHeader := sigH, eventHeader := some "push", body := body,
          parsedJson := some (Json.obj kvs) } = .stored doc msg) :
    doc.to_branch = Json.str (stripRefsHeads ref) ∧ doc.from_branch = none := by
  unfold github_webhook at hout
  rw [hgate] at hout
  simp only [webhook_core, hrepo, exc_bind_ok, Option.getD_some, reduceIte,
    hpusher, hname, Json.pyGet, href, Json.asStrA, htime, exc_pure] at hout
  rw [code_strip_eq_spec] at hout
  obtain ⟨hdoc, -, -, -⟩ := finalize_stored hout
  subst hdoc
  exact ⟨rfl, rfl⟩

/-- C4: for every pull_request delivery with action "closed" and
pull_request.merged equal to true that stores a record, the record has
event_type "merge", author pull_request.merged_by.login, from_branch
pull_request.head.ref, to_branch pull_request.base.ref, and its
timestamp comes from pull_request.merged_at (normalized and parsed) when
that field holds a nonempty string, and is the ingestion time when the
field is absent or null. -/
theorem C4_merge_record (parseOk : String → Bool)
    (hm : String → List Nat → String) (saveOk : Bool) (secret : String)
    (now : Nat) (sigH : Option String) (body : List Nat)
    (kvs prkvs mbkvs hkvs bkvs : List (String × Json))
    (authorJ fromJ toJ repoFull : Json) (tm : DTime)
    (hgate : signature_gate hm secret body sigH = none)
    (hrepo : repoExtract (Json.obj kvs) = Except.ok repoFull)
    (haction : kvs.lookup "action" = some (Json.str "closed"))
    (hpr : kvs.lookup "pull_request" = some (Json.obj prkvs))
    (hmerged : prkvs.lookup "merged" = some (Json.bool true))
    (hmb : prkvs.lookup "merged_by" = some (Json.obj mbkvs))
    (hlogin : mbkvs.lookup "login" = some authorJ)
    (hhd : prkvs.lookup "head" = some (Json.obj hkvs))
    (hhr : hkvs.lookup "ref" = some fromJ)
    (hbs : prkvs.lookup "base" = some (Json.obj bkvs))
    (hbr : bkvs.lookup "ref" = some toJ)
    (htm : optTime parseOk now ((prkvs.lookup "merged_at").getD Json.null) = Except.ok tm)
    {doc : GitHubEvent} {msg : String}
    (hout : github_webhook parseOk hm saveOk secret now
        { sigHeader := sigH, eventHeader := some "pull_request", body := body,
          parsedJson := some (Json.obj kvs) } = .stored doc msg) :
    doc.event_type = "merge" ∧ doc.author = authorJ ∧
      doc.from_branch = some fromJ ∧ doc.to_branch = toJ ∧ doc.timestamp = tm ∧
      (∀ s, prkvs.lookup "merged_at" = some (Json.str s) → s ≠ "" →
        parseOk (pyReplaceAllChar s 'Z' "+00:00") = true →
        tm = DTime.fromIso (pyReplaceAllChar s 'Z' "+00:00")) ∧
      (prkvs.lookup "merged_at" = none → tm = DTime.utcnow now) ∧
      (prkvs.lookup "merged_at" = some Json.null → tm = DTime.utcnow now) := by
  unfold github_webhook at hout
  rw [hgate] at hout
  simp only [webhook_core, hrepo, exc_bind_ok, Option.getD_some, reduceIte,
    Json.pyGet, Json.pyIndex, haction, hpr, Json.eqStr, String.reduceBEq,
    Bool.false_eq_true, hmerged, Json.pyEqTrue, hmb, hlogin, hhd, hhr, hbs, hbr,
    htm, exc_pure] at hout
  obtain ⟨hdoc, -, -, -⟩ := finalize_stored hout
  subst hdoc
  refine ⟨rfl, rfl, rfl, rfl, rfl, ?_, ?_, ?_⟩
  · intro s hma hne hp
    rw [hma] at htm
    simp only [Option.getD_some, optTime, Json.truthy, bne_iff_ne, ne_eq, hne,
      not_false_eq_true, if_true, Json.asStrA, exc_bind_ok, hp, exc_pure] at htm
    exact (Except.ok.inj htm).symm
  · intro hma
    rw [hma] at htm
    simp only [Option.getD_none, optTime, Json.truthy, Bool.false_eq_true,
      if_false, exc_pure] at htm
    exact (Except.ok.inj htm).symm
  · intro hma
    rw [hma] at htm
    simp only [Option.getD_some, optTime, Json.truthy, Bool.false_eq_true,
      if_false, exc_pure] at htm
    exact (Except.ok.inj htm).symm

/-- C5: a delivery that passes the signature and JSON stages and whose
X-GitHub-Event header is neither push nor pull_request is answered 200
with exactly "Ignored event type='<header>'", and a pull_request
delivery whose action string is not opened and not closed-with-merged
is answered 200 with exactly "Ignored pull_request action='<action>'";
neither path stores a record (the outcome is a plain response). -/
theorem C5_ignored_deliveries :
    (∀ (parseOk : String → Bool) (hm : String → List Nat → String)
        (saveOk : Bool) (secret : String) (now : Nat) (sigH : Option String)
        (body : List Nat) (payload repoFull : Json) (h : String),
      signature_gate hm secret body sigH = none →
      repoExtract payload = Except.ok repoFull →
      h ≠ "push" → h ≠ "pull_request" →
      github_webhook parseOk hm saveOk secret now
          { sigHeader := sigH, eventHeader := some h, body := body,
            parsedJson := some payload }
        = .resp 200 ("Ignored event type=" ++ sglq ++ h ++ sglq)) ∧
    (∀ (parseOk : String → Bool) (hm : String → List Nat → String)
        (saveOk : Bool) (secret : String) (now : Nat) (sigH : Option String)
        (body : List Nat) (kvs : List (String × Json)) (repoFull : Json)
        (a : String),
      signature_gate hm secret body sigH = none →
      repoExtract (Json.obj kvs) = Except.ok repoFull →
      (kvs.lookup "action").getD (Json.str "") = Json.str a →
      a ≠ "opened" →
      (a = "closed" →
        ∃ prkvs, (kvs.lookup "pull_request").getD (Json.obj []) = Json.obj prkvs ∧
          ((prkvs.lookup "merged").getD Json.null).pyEqTrue = false) →
      github_webhook parseOk hm saveOk secret now
          { sigHeader := sigH, eventHeader := some "pull_request", body := body,
            parsedJson := some (Json.obj kvs) }
        = .resp 200 ("Ignored pull_request action=" ++ sglq ++ a ++ sglq)) := by
  constructor
  · intro parseOk hm saveOk secret now sigH body payload repoFull h hgate hrepo h1 h2
    unfold github_webhook
    rw [hgate]
    simp only [webhook_core, hrepo, exc_bind_ok, Option.getD_some, if_neg h1,
      if_neg h2, exc_pure, ignoreEventMsg]
  · intro parseOk hm saveOk secret now sigH body kvs repoFull a hgate hrepo
      haction ha1 hclosed
    unfold github_webhook
    rw [hgate]
    have hop : (a == "opened") = false := beq_eq_false_iff_ne.mpr ha1
    simp only [webhook_core, hrepo, exc_bind_ok, Option.getD_some, reduceIte,
      Json.pyGet, haction, Json.eqStr, hop, Bool.false_eq_true, if_false, exc_pure]
    by_cases hc : a = "closed"
    · subst hc
      obtain ⟨prkvs, hpr, hmjf⟩ := hclosed rfl
      simp only [String.reduceBEq, if_true, hpr, exc_bind_ok, hmjf,
        Bool.false_eq_true, if_false, exc_pure, ignorePrMsg, Json.pyStr]
      rfl
    · have hcl : (a == "closed") = false := beq_eq_false_iff_ne.mpr hc
      simp only [hcl, Bool.false_eq_true, if_false, exc_pure, ignorePrMsg, Json.pyStr]
      rfl

/-- C10: a delivery that passes the signature and JSON stages and has no
X-GitHub-Event header at all is not rejected: the absent header defaults
to the empty string, falls through dispatch, and is answered 200 with
exactly "Ignored event type=''" (the plain response stores nothing). -/
theorem C10_absent_event_header (parseOk : String → Bool)
    (hm : String → List Nat → String) (saveOk : Bool) (secret : String)
    (now : Nat) (sigH : Option String) (body : List Nat)
    (payload repoFull : Json)
    (hgate : signature_gate hm secret body sigH = none)
    (hrepo : repoExtract payload = Except.ok repoFull) :
    github_webhook parseOk hm saveOk secret now
        { sigHeader := sigH, eventHeader := none, body := body,
          parsedJson := some payload }
      = .resp 200 ("Ignored event type=" ++ sglq ++ sglq) := by
  unfold github_webhook
  rw [hgate]
  simp only [Option.getD_none, webhook_core, hrepo, exc_bind_ok, reduceIte,
    exc_pure, ignoreEventMsg]
  rfl

/-- C6: every outcome of run.py github_webhook that stores a record
stores one whose event_type, author and to_branch passed the Python
truthiness validation, so the event_type is a nonempty string, author
and to_branch are neither null nor empty strings, and the timestamp is a
(always truthy) datetime; a normalization result failing the validation
is answered 400 before the save is attempted, so it is never stored. -/
theorem C6_stored_record_invariant (parseOk : String → Bool)
    (hm : String → List Nat → String) (saveOk : Bool) (secret : String)
    (now : Nat) (req : WebhookRequest) (doc : GitHubEvent) (msg : String)
    (hout : github_webhook parseOk hm saveOk secret now req = .stored doc msg) :
    doc.event_type ≠ "" ∧ doc.author.truthy = true ∧
      doc.to_branch.truthy = true ∧ DTime.pyTruthy doc.timestamp = true ∧
      doc.author ≠ Json.null ∧ doc.to_branch ≠ Json.null ∧
      (∀ s, doc.author = Json.str s → s ≠ "") ∧
      (∀ s, doc.to_branch = Json.str s → s ≠ "") := by
  unfold github_webhook at hout
  split at hout
  next => cases hout
  next =>
    split at hout
    next => cases hout
    next payload =>
      split at hout
      next => cases hout
      next => cases hout
      next repoFull et au fb tb tm =>
        obtain ⟨hdoc, hne, hau, htb⟩ := finalize_stored hout
        subst hdoc
        exact ⟨hne, hau, htb, rfl, truthy_ne_null hau, truthy_ne_null htb,
          fun s hs => truthy_str_ne_empty hau hs,
          fun s hs => truthy_str_ne_empty htb hs⟩

/-- C7 (amended): on a push delivery whose head_commit.timestamp is a
nonempty string, run.py replaces every "Z" (in particular the trailing
designator) by "+00:00" before handing the string to
datetime.fromisoformat; when the normalized string does not parse, the
delivery fails with an uncaught ValueError that the framework surfaces
as HTTP 500 (it is not silently defaulted to the ingestion time, and it
is not the 400 PayloadError response stated by the claim); when it
parses, the stored timestamp is exactly the parsed normalized string. -/
theorem C7_timestamp_normalization (parseOk : String → Bool)
    (hm : String → List Nat → String) (saveOk : Bool) (secret : String)
    (now : Nat) (sigH : Option String) (body : List Nat)
    (kvs hck : List (String × Json)) (pusherJ authorJ repoFull : Json)
    (ref ts : String)
    (hgate : signature_gate hm secret body sigH = none)
    (hrepo : repoExtract (Json.obj kvs) = Except.ok repoFull)
    (hpusher : (Json.obj kvs).pyIndex "pusher" = Except.ok pusherJ)
    (hname : pusherJ.pyIndex "name" = Except.ok authorJ)
    (href : kvs.lookup "ref" = some (Json.str ref))
    (hhc : kvs.lookup "head_commit" = some (Json.obj hck))
    (hts : hck.lookup "timestamp" = some (Json.str ts))
    (hne : ts ≠ "") :
    (parseOk (pyReplaceAllChar ts 'Z' "+00:00") = false →
      github_webhook parseOk hm saveOk secret now
          { sigHeader := sigH, eventHeader := some "push", body := body,
            parsedJson := some (Json.obj kvs) }
        = .crash "ValueError: fromisoformat" ∧
      WebhookOutcome.statusOf (.crash "ValueError: fromisoformat") = 500) ∧
    (parseOk (pyReplaceAllChar ts 'Z' "+00:00") = true →
      ∀ doc msg, github_webhook parseOk hm saveOk secret now
          { sigHeader := sigH, eventHeader := some "push", body := body,
            parsedJson := some (Json.obj kvs) }
        = .stored doc msg →
      doc.timestamp = DTime.fromIso (pyReplaceAllChar ts 'Z' "+00:00")) := by
  have hcknil : hck.isEmpty = false := by
    cases hck with
    | nil => simp [List.lookup] at hts
    | cons x xs => rfl
  have htime : pushTime parseOk now (Json.obj kvs) =
      (if parseOk (pyReplaceAllChar ts 'Z' "+00:00") then
        Except.ok (DTime.fromIso (pyReplaceAllChar ts 'Z' "+00:00"))
      else Except.error "ValueError: fromisoformat") := by
    simp only [pushTime, Json.pyGet, hhc, Option.getD_some, exc_bind_ok,
      Json.truthy, hcknil, Bool.not_false, if_true, hts, optTime,
      bne_iff_ne, ne_eq, hne, not_false_eq_true, Json.asStrA, exc_pure]
  constructor
  · intro hpf
    rw [hpf, if_neg (by simp)] at htime
    constructor
    · unfold github_webhook
      rw [hgate]
      simp only [webhook_core, hrepo, exc_bind_ok, Option.getD_some, reduceIte,
        hpusher, hname, Json.pyGet, href, Json.asStrA, htime, exc_bind_error]
    · rfl
  · intro hpt doc msg hout
    rw [hpt, if_pos rfl] at htime
    unfold github_webhook at hout
    rw [hgate] at hout
    simp only [webhook_core, hrepo, exc_bind_ok, Option.getD_some, reduceIte,
      hpusher, hname, Json.pyGet, href, Json.asStrA, htime, exc_pure] at hout
    obtain ⟨hdoc, -, -, -⟩ := finalize_stored hout
    subst hdoc
    rfl

/-- C7 counterexample: a concrete push delivery whose
head_commit.timestamp does not parse as ISO-8601 makes run.py raise an
uncaught ValueError, surfaced as HTTP 500, instead of responding 400
with a PayloadError as the claim states. -/
theorem C7_timestamp_counterexample :
    github_webhook (fun _ => false) (fun _ _ => "") true "" 0
        { sigHeader := none, eventHeader := some "push", body := [],
          parsedJson := some (Json.obj
            [("pusher", Json.obj [("name", Json.str "alice")]),
             ("ref", Json.str "refs/heads/main"),
             ("head_commit", Json.obj [("timestamp", Json.str "not-a-date")])]) }
      = .crash "ValueError: fromisoformat" := rfl

theorem insertDesc_perm (key : DTime → Int) (x : StoredDoc) (l : List StoredDoc) :
    (insertDesc key x l).Perm (x :: l) := by
  induction l with
  | nil => exact List.Perm.refl _
  | cons y ys ih =>
    unfold insertDesc
    split
    · exact List.Perm.refl _
    · exact (List.Perm.cons y ih).trans (List.Perm.swap x y ys)

theorem sortDesc_perm (key : DTime → Int) (l : List StoredDoc) :
    (sortDesc key l).Perm l := by
  induction l with
  | nil => exact List.Perm.refl _
  | cons x xs ih =>
    exact (insertDesc_perm key x (sortDesc key xs)).trans (List.Perm.cons x ih)

theorem pairwise_insertDesc (key : DTime → Int) (x : StoredDoc)
    (l : List StoredDoc)
    (h : l.Pairwise (fun a b => key b.doc.timestamp ≤ key a.doc.timestamp)) :
    (insertDesc key x l).Pairwise
      (fun a b => key b.doc.timestamp ≤ key a.doc.timestamp) := by
  induction l with
  | nil => simp [insertDesc]
  | cons y ys ih =>
    rw [List.pairwise_cons] at h
    obtain ⟨hy, hys⟩ := h
    unfold insertDesc
    split
    next hxy =>
      refine List.Pairwise.cons ?_ (List.Pairwise.cons hy hys)
      intro z hz
      rcases List.mem_cons.mp hz with rfl | hz
      · exact hxy
      · exact le_trans (hy z hz) hxy
    next hxy =>
      push_neg at hxy
      refine List.Pairwise.cons ?_ (ih hys)
      intro z hz
      have hz' := (insertDesc_perm key x ys).mem_iff.mp hz
      rcases List.mem_cons.mp hz' with rfl | hzz
      · exact le_of_lt hxy
      · exact hy z hzz

theorem pairwise_sortDesc (key : DTime → Int) (l : List StoredDoc) :
    (sortDesc key l).Pairwise
      (fun a b => key b.doc.timestamp ≤ key a.doc.timestamp) := by
  induction l with
  | nil => simp [sortDesc]
  | cons x xs ih => exact pairwise_insertDesc key x _ ih

/-- C8: GET /events returns the stored documents ordered by descending
timestamp, capped at the parsed limit: the limit defaults to 20 when the
query parameter is absent and when int() rejects it as non-numeric; the
output is sorted by descending timestamp key; the ordering is a
permutation of the store, and a positive limit returns its first limit
documents (the most recent ones); a zero limit returns the whole
ordering and a negative limit its first |n| documents, neither erroring. -/
theorem C8_list_events (key : DTime → Int) (db : List StoredDoc)
    (p : Option String) :
    (p = none → list_events key db p = mongoLimit 20 (sortDesc key db)) ∧
      (∀ s, p = some s → pyInt s = none →
        list_events key db p = mongoLimit 20 (sortDesc key db)) ∧
      (list_events key db p).Pairwise
        (fun a b => key b.doc.timestamp ≤ key a.doc.timestamp) ∧
      (sortDesc key db).Perm db ∧
      (0 < parseLimit p →
        list_events key db p = (sortDesc key db).take (parseLimit p).natAbs) ∧
      (parseLimit p = 0 → list_events key db p = sortDesc key db) ∧
      (parseLimit p < 0 →
        list_events key db p = (sortDesc key db).take (parseLimit p).natAbs) := by
  refine ⟨?_, ?_, ?_, sortDesc_perm key db, ?_, ?_, ?_⟩
  · intro hp; subst hp; rfl
  · intro s hp hint; subst hp; simp [list_events, parseLimit, hint]
  · unfold list_events mongoLimit
    split
    · exact pairwise_sortDesc key db
    · exact List.Pairwise.sublist (List.take_sublist _ _) (pairwise_sortDesc key db)
  · intro hpos
    unfold list_events mongoLimit
    rw [if_neg (by omega)]
  · intro h0
    unfold list_events mongoLimit
    rw [if_pos h0]
  · intro hneg
    unfold list_events mongoLimit
    rw [if_neg (by omega)]

/-- C9: the save operation of the (spec-modelled) event store persists
exactly one document per accepted delivery, appending it with a fresh
identifier different from every stored one, and stamps it with the
server-side insertion instant as received_at, independently of the
event-occurrence timestamp field inside the record. -/
theorem C9_store_save (st : EventStore) (r : GitHubEvent) (now : Nat)
    (hwf : st.Wf) :
    (st.save r now).docs
        = st.docs ++ [{ id := st.nextId, doc := r, received_at := now }] ∧
      (∀ d ∈ st.docs, d.id ≠ st.nextId) ∧
      (st.save r now).Wf ∧
      (∀ t : DTime, (st.save { r with timestamp := t } now).docs
        = st.docs ++ [{ id := st.nextId, doc := { r with timestamp := t },
                        received_at := now }]) := by
  refine ⟨rfl, ?_, ?_, fun t => rfl⟩
  · intro d hd
    exact Nat.ne_of_lt (hwf d hd)
  · intro d hd
    simp only [EventStore.save, List.mem_append, List.mem_singleton] at hd
    rcases hd with hd | rfl
    · exact Nat.lt_succ_of_lt (hwf d hd)
    · exact Nat.lt_succ_self _

/-- C3 witness: the push contract applied at a concrete delivery whose
ref is "refs/heads/main"; the recorded to_branch evaluates to "main". -/
theorem C3_push_to_branch_witness :
    Json.str "main" = Json.str (stripRefsHeads "refs/heads/main") ∧
      (none : Option Json) = none :=
  C3_push_to_branch (fun _ => true) (fun _ _ => "") true "" 0 none []
    [("pusher", Json.obj [("name", Json.str "alice")]),
     ("ref", Json.str "refs/heads/main")]
    (Json.obj [("name", Json.str "alice")]) (Json.str "alice")
    (Json.str "unknown/unknown") "refs/heads/main" (DTime.utcnow 0)
    rfl rfl rfl rfl rfl rfl rfl

/-- C4 witness: the merge contract applied at a concrete closed-merged
delivery; the recorded author evaluates to merged_by.login. -/
theorem C4_merge_record_witness : Json.str "bob" = Json.str "bob" :=
  (C4_merge_record (fun _ => true) (fun _ _ => "") true "" 0 none []
    [("action", Json.str "closed"),
     ("pull_request", Json.obj
       [("merged", Json.bool true),
        ("merged_by", Json.obj [("login", Json.str "bob")]),
        ("head", Json.obj [("ref", Json.str "feat")]),
        ("base", Json.obj [("ref", Json.str "main")]),
        ("merged_at", Json.str "2025-01-01T00:00:00Z")])]
    [("merged", Json.bool true),
     ("merged_by", Json.obj [("login", Json.str "bob")]),
     ("head", Json.obj [("ref", Json.str "feat")]),
     ("base", Json.obj [("ref", Json.str "main")]),
     ("merged_at", Json.str "2025-01-01T00:00:00Z")]
    [("login", Json.str "bob")] [("ref", Json.str "feat")]
    [("ref", Json.str "main")]
    (Json.str "bob") (Json.str "feat") (Json.str "main")
    (Json.str "unknown/unknown")
    (DTime.fromIso (pyReplaceAllChar "2025-01-01T00:00:00Z" 'Z' "+00:00"))
    rfl rfl rfl rfl rfl rfl rfl rfl rfl rfl rfl rfl rfl).2.1

/-- C5 witness: the ignore contract applied at a concrete delivery with
event header "star". -/
theorem C5_ignored_deliveries_witness :
    github_webhook (fun _ => true) (fun _ _ => "") true "" 0
        { sigHeader := none, eventHeader := some "star", body := [],
          parsedJson := some (Json.obj []) }
      = .resp 200 ("Ignored event type=" ++ sglq ++ "star" ++ sglq) :=
  C5_ignored_deliveries.1 (fun _ => true) (fun _ _ => "") true "" 0 none []
    (Json.obj []) (Json.str "unknown/unknown") "star" rfl rfl
    (by decide) (by decide)

/-- C6 witness: the stored-record invariant applied at a concrete stored
push delivery; the recorded author evaluates to a non-null value. -/
theorem C6_stored_record_invariant_witness : Json.str "alice" ≠ Json.null :=
  (C6_stored_record_invariant (fun _ => true) (fun _ _ => "") true "" 0
    { sigHeader := none, eventHeader := some "push", body := [],
      parsedJson := some (Json.obj
        [("pusher", Json.obj [("name", Json.str "alice")]),
         ("ref", Json.str "refs/heads/main")]) }
    _ _ rfl).2.2.2.2.1

/-- C7 witness: the amended timestamp contract applied at a concrete
push delivery with an unparseable head_commit timestamp. -/
theorem C7_timestamp_normalization_witness :
    github_webhook (fun _ => false) (fun _ _ => "") true "" 0
        { sigHeader := none, eventHeader := some "push", body := [],
          parsedJson := some (Json.obj
            [("pusher", Json.obj [("name", Json.str "bob")]),
             ("ref", Json.str "refs/heads/dev"),
             ("head_commit", Json.obj [("timestamp", Json.str "bogus-ts")])]) }
      = .crash "ValueError: fromisoformat" :=
  ((C7_timestamp_normalization (fun _ => false) (fun _ _ => "") true "" 0 none []
      [("pusher", Json.obj [("name", Json.str "bob")]),
       ("ref", Json.str "refs/heads/dev"),
       ("head_commit", Json.obj [("timestamp", Json.str "bogus-ts")])]
      [("timestamp", Json.str "bogus-ts")]
      (Json.obj [("name", Json.str "bob")]) (Json.str "bob")
      (Json.str "unknown/unknown") "refs/heads/dev" "bogus-ts"
      rfl rfl rfl rfl rfl rfl rfl (by decide)).1 rfl).1

/-- C8 witness: the list contract applied at a concrete store with limit
parameter "2": the result is the first two documents of the descending
ordering. -/
theorem C8_list_events_witness :
    list_events utKey sampleDb (some "2")
      = (sortDesc utKey sampleDb).take (parseLimit (some "2")).natAbs :=
  (C8_list_events utKey sampleDb (some "2")).2.2.2.2.1 (by decide)

/-- C9 witness: the save contract applied at a concrete well-formed
store; exactly the new document is appended, stamped with the insertion
instant 9. -/
theorem C9_store_save_witness :
    (EventStore.save
        { nextId := 1,
          docs := [{ id := 0, doc := sampleEvent "a" "m" 1, received_at := 0 }] }
        (sampleEvent "b" "m" 5) 9).docs
      = [{ id := 0, doc := sampleEvent "a" "m" 1, received_at := 0 },
         { id := 1, doc := sampleEvent "b" "m" 5, received_at := 9 }] :=
  (C9_store_save
    { nextId := 1,
      docs := [{ id := 0, doc := sampleEvent "a" "m" 1, received_at := 0 }] }
    (sampleEvent "b" "m" 5) 9
    (by intro d hd; simp only [List.mem_singleton] at hd; subst hd; decide)).1

/-- C10 witness: the absent-header contract applied at a concrete
delivery carrying no X-GitHub-Event header. -/
theorem C10_absent_event_header_witness :
    github_webhook (fun _ => true) (fun _ _ => "") true "" 0
        { sigHeader := none, eventHeader := none, body := [],
          parsedJson := some (Json.obj []) }
      = .resp 200 ("Ignored event type=" ++ sglq ++ sglq) :=
  C10_absent_event_header (fun _ => true) (fun _ _ => "") true "" 0 none []
    (Json.obj []) (Json.str "unknown/unknown") rfl rfl
